import Mathlib

/-!
Shallow embedding of the session/authentication core of the repository:
the JWT configuration (src/server/src/config/jwt.js), the User model
(the second document of src/server/src/models/Cart.js, the userSchema),
the one-time-code store (src/server/src/utils/otp.store.js), the auth
controller (src/unnamed/part_000: register, login, refreshToken, logout,
sendOtp, verifyOtp), and the route wiring (src/server/src/app.js).

Times are wall-clock milliseconds as Int (Date.now()). JavaScript string
falsiness is modelled explicitly: the empty string is falsy. JWT tokens
are modelled symbolically as records carrying the subject id, the signing
key and the expiry instant; two tokens are the same string iff they are
structurally equal (jwt.sign is deterministic in payload, key and time).
bcrypt is modelled as an abstract hash/compare function passed in as a
parameter, since the claims under study never reach its internals.
-/

/-! ## JWT configuration: src/server/src/config/jwt.js lines 10-15 -/

/-- JavaScript `v || d` specialised to an optional environment string:
`process.env.X` is `undefined` (none) when unset, and the empty string
is falsy, so both fall back to the default. -/
def jsOrDefault : Option String → String → String
  | some s, d => if s = "" then d else s
  | none, d => d

/-- The config object of jwt.js lines 10-15. -/
structure JwtConfig where
  accessSecret : String
  refreshSecret : String
  accessExpiry : String
  refreshExpiry : String
deriving DecidableEq, Repr

/-- jwt.js lines 10-15: every field falls back to a hardcoded default
when the environment variable is absent (or empty). -/
def configOf (env : String → Option String) : JwtConfig :=
  { accessSecret := jsOrDefault (env "JWT_ACCESS_SECRET") "fallback_access_secret_key_very_secure"
    refreshSecret := jsOrDefault (env "JWT_REFRESH_SECRET") "fallback_refresh_secret_key_very_secure"
    accessExpiry := jsOrDefault (env "JWT_ACCESS_EXPIRY") "15m"
    refreshExpiry := jsOrDefault (env "JWT_REFRESH_EXPIRY") "7d" }

/-- Startup as wired in app.js lines 102-119: the config module is loaded
(jwt.js line 10, which never throws thanks to the fallbacks) and the server
is started unconditionally; there is no validation step that could fail
startup on a missing signing key, and even a failed database connection
still starts the server (app.js lines 113-119). -/
def startup (env : String → Option String) : Except String JwtConfig :=
  Except.ok (configOf env)

/-! ## Symbolic JWT: jwt.js lines 22-54 and 95-101 -/

/-- A signed token, symbolically: subject id, signing key, expiry instant.
jwt.sign is deterministic, so string equality of real tokens corresponds
to structural equality here. Unforgeability of the signature is modelled
by the fact that verification checks the key field. -/
structure SignedToken where
  userId : Nat
  key : String
  expMs : Int
deriving DecidableEq, Repr

/-- jwt.sign with payload { userId } and an expiry. -/
def jwtSign (userId : Nat) (key : String) (expMs : Int) : SignedToken :=
  { userId := userId, key := key, expMs := expMs }

/-- jwt.verify: returns the decoded payload (its userId claim) when the
signature matches the key and the token has not expired, otherwise the
sentinel absence value (the try/catch in jwt.js returns null). -/
def jwtVerify (key : String) (now : Int) (t : SignedToken) : Option Nat :=
  if t.key = key ∧ now < t.expMs then some t.userId else none

/-- jwt.js lines 48-54. -/
def verifyAccessToken (cfg : JwtConfig) (now : Int) (t : SignedToken) : Option Nat :=
  jwtVerify cfg.accessSecret now t

/-- jwt.js lines 95-101. -/
def verifyRefreshToken (cfg : JwtConfig) (now : Int) (t : SignedToken) : Option Nat :=
  jwtVerify cfg.refreshSecret now t

/-- generateAccessToken, jwt.js lines 22-28 (accessExpiry defaults to 15m). -/
def accessExpiryMs : Int := 15 * 60 * 1000

/-- generateRefreshToken, jwt.js lines 35-41 (refreshExpiry defaults to 7d). -/
def refreshExpiryMs : Int := 7 * 24 * 60 * 60 * 1000

def generateAccessToken (cfg : JwtConfig) (now : Int) (userId : Nat) : SignedToken :=
  jwtSign userId cfg.accessSecret (now + accessExpiryMs)

def generateRefreshToken (cfg : JwtConfig) (now : Int) (userId : Nat) : SignedToken :=
  jwtSign userId cfg.refreshSecret (now + refreshExpiryMs)

/-! ## One-time-code store: src/server/src/utils/otp.store.js -/

/-- The value stored per phone: { otp, expiresAt }. -/
structure OtpEntry where
  otp : String
  expiresAt : Int
deriving DecidableEq, Repr

/-- The module-level Map, as an association list with at most one entry
per key (Map.set overwrites). -/
abbrev OtpStore := List (String × OtpEntry)

/-- otpStore.get(phone). -/
def otpLookup (s : OtpStore) (phone : String) : Option OtpEntry :=
  (s.find? (fun p => p.1 = phone)).map (fun p => p.2)

/-- otpStore.delete(phone). -/
def otpErase (s : OtpStore) (phone : String) : OtpStore :=
  s.filter (fun p => p.1 ≠ phone)

/-- saveOtp, otp.store.js lines 3-8: Map.set overwrites any prior entry
for the phone and stamps expiresAt = Date.now() + 5 min. -/
def saveOtp (s : OtpStore) (now : Int) (phone otp : String) : OtpStore :=
  (phone, { otp := otp, expiresAt := now + 5 * 60 * 1000 }) :: otpErase s phone

/-- verifyOtp, otp.store.js lines 10-24: returns the boolean result and
the store after the side effects (deletion on expiry or on success). -/
def verifyOtp (s : OtpStore) (now : Int) (phone otp : String) : Bool × OtpStore :=
  match otpLookup s phone with
  | none => (false, s)
  | some data =>
    if data.expiresAt < now then (false, otpErase s phone)
    else if data.otp ≠ otp then (false, s)
    else (true, otpErase s phone)

/-- A trace step against the store: the only two operations the module
exports. -/
inductive OtpOp
  | save (now : Int) (phone otp : String)
  | verify (now : Int) (phone otp : String)
deriving DecidableEq, Repr

/-- Whether an operation issues a fresh code for the given contact. -/
def OtpOp.issuesFor : OtpOp → String → Bool
  | .save _ p _, q => p = q
  | .verify _ _ _, _ => false

/-- Run a list of store operations left to right. -/
def runOtpOps (s : OtpStore) : List OtpOp → OtpStore
  | [] => s
  | .save n p o :: rest => runOtpOps (saveOtp s n p o) rest
  | .verify n p o :: rest => runOtpOps (verifyOtp s n p o).2 rest

/-! ## User model: userSchema in src/server/src/models/Cart.js lines 167-280 -/

/-- One element of the refreshTokens array. -/
structure RefreshEntry where
  token : SignedToken
  expiresAt : Int
deriving DecidableEq, Repr

/-- A User document. Schema defaults: name, email and password default to
the empty string; refreshTokens defaults to the empty array. -/
structure UserRec where
  id : Nat
  name : String := ""
  email : String := ""
  phone : String
  password : String := ""
  refreshTokens : List RefreshEntry := []
deriving DecidableEq, Repr

/-- The users collection. -/
abbrev UserStore := List UserRec

/-- User.findById. -/
def findById (store : UserStore) (uid : Nat) : Option UserRec :=
  store.find? (fun u => u.id = uid)

/-- JavaScript String.toLowerCase, character by character (the schema
option lowercase: true and the findByEmail lookup both use it). Defined
over the character list so that concrete instances evaluate. -/
def strLower (s : String) : String :=
  String.mk (s.data.map Char.toLower)

/-- User.findByEmail (Cart.js lines 255-257): lowercases before lookup;
stored emails are already lowercased by the schema. -/
def findByEmail (store : UserStore) (email : String) : Option UserRec :=
  store.find? (fun u => u.email = strLower email)

/-- User.findByPhone (Cart.js lines 260-262). -/
def findByPhone (store : UserStore) (phone : String) : Option UserRec :=
  store.find? (fun u => u.phone = phone)

/-- document.save(): the persisted collection replaces the document with
the same id by the mutated copy. -/
def persistUser (store : UserStore) (u : UserRec) : UserStore :=
  store.map (fun v => if v.id = u.id then u else v)

/-- comparePassword, Cart.js lines 217-221: when either side is falsy
(the empty string) the method returns the strict equality of the two
strings; otherwise it defers to bcrypt.compare. bcryptCompare is the
abstract bcrypt.compare(candidate, storedHash). -/
def comparePassword (bcryptCompare : String → String → Bool)
    (storedPassword candidate : String) : Bool :=
  if candidate = "" ∨ storedPassword = "" then candidate == storedPassword
  else bcryptCompare candidate storedPassword

/-- addRefreshToken, Cart.js lines 234-240: pushes { token, expiresAt }
with expiresAt = now + expiresInDays days (default 7). -/
def addRefreshToken (now : Int) (u : UserRec) (t : SignedToken) : UserRec :=
  { u with refreshTokens := u.refreshTokens ++ [{ token := t, expiresAt := now + 7 * 24 * 60 * 60 * 1000 }] }

/-- removeRefreshToken, Cart.js lines 243-246: keeps the entries whose
token differs from the given one. -/
def removeRefreshToken (u : UserRec) (t : SignedToken) : UserRec :=
  { u with refreshTokens := u.refreshTokens.filter (fun rt => rt.token ≠ t) }

/-- clearRefreshTokens, Cart.js lines 249-252. -/
def clearRefreshTokens (u : UserRec) : UserRec :=
  { u with refreshTokens := [] }

/-! ## User.create under the mongoose schema (Cart.js lines 167-214)

The schema declares unique indexes on email and on phone (unique: true,
not sparse), and email defaults to the empty string, lowercased and
trimmed. MongoDB enforces a unique index over the stored values, the
default empty string included, and raises the duplicate-key error
E11000 (code 11000) on a collision. The pre-save hook (lines 203-214)
bcrypt-hashes a non-empty password and skips hashing for the empty one. -/

/-- The MongoDB duplicate-key failure (error.code === 11000). -/
inductive DbError
  | duplicateKey (field : String)
deriving DecidableEq, Repr

/-- The argument object of User.create: absent fields are none. -/
structure CreateInput where
  name : Option String := none
  email : Option String := none
  phone : String
  password : Option String := none
deriving DecidableEq, Repr

/-- User.create: apply schema defaults, enforce the two unique indexes,
run the pre-save password hook, append the document. bcryptHash is the
abstract salted bcrypt hash. -/
def userCreate (bcryptHash : String → String) (store : UserStore) (newId : Nat)
    (inp : CreateInput) : Except DbError UserStore :=
  let email := strLower (inp.email.getD "")
  let pw := inp.password.getD ""
  if store.any (fun u => u.phone = inp.phone) then
    Except.error (DbError.duplicateKey "phone")
  else if store.any (fun u => u.email = email) then
    Except.error (DbError.duplicateKey "email")
  else
    Except.ok (store ++ [{ id := newId, name := inp.name.getD "", email := email,
                           phone := inp.phone,
                           password := if pw = "" then "" else bcryptHash pw,
                           refreshTokens := [] }])

/-! ## HTTP responses and the auth controller: src/unnamed/part_000 -/

/-- The slice of the response envelope the claims are about: status code,
message, and which tokens the data object carries. -/
structure ApiResponse where
  status : Nat
  message : String
  accessToken : Option SignedToken := none
  refreshToken : Option SignedToken := none
deriving DecidableEq, Repr

/-- refreshToken controller, part_000 lines 146-202. Input is the
optional refreshToken field of the body; output is the response and the
resulting user store — this controller never mutates it. -/
def refreshTokenController (cfg : JwtConfig) (now : Int) (store : UserStore)
    (body : Option SignedToken) : ApiResponse × UserStore :=
  match body with
  | none => ({ status := 400, message := "Refresh token is required" }, store)
  | some t =>
    match verifyRefreshToken cfg now t with
    | none => ({ status := 401, message := "Invalid or expired refresh token" }, store)
    | some uid =>
      match findById store uid with
      | none => ({ status := 401, message := "User not found" }, store)
      | some u =>
        if u.refreshTokens.any (fun rt => rt.token = t) then
          ({ status := 200, message := "Token refreshed successfully",
             accessToken := some (generateAccessToken cfg now uid) }, store)
        else
          ({ status := 401, message := "Refresh token has been revoked" }, store)

/-- First half of the logout controller, part_000 lines 210-222: when the
body carries a refresh token that verifies and whose owner exists, that
one token is removed from the owner. -/
def logoutBodyPhase (cfg : JwtConfig) (now : Int) (store : UserStore)
    (bodyToken : Option SignedToken) : UserStore :=
  match bodyToken with
  | none => store
  | some t =>
    match verifyRefreshToken cfg now t with
    | none => store
    | some uid =>
      match findById store uid with
      | none => store
      | some u => persistUser store (removeRefreshToken u t)

/-- Second half of the logout controller, part_000 lines 224-230: when
req.userId was set by the auth middleware, that user has all refresh
tokens cleared. -/
def logoutAuthPhase (store : UserStore) (reqUserId : Option Nat) : UserStore :=
  match reqUserId with
  | none => store
  | some uid =>
    match findById store uid with
    | none => store
    | some u => persistUser store (clearRefreshTokens u)

/-- logout controller, part_000 lines 208-243: both phases in order,
then an unconditional 200. -/
def logoutController (cfg : JwtConfig) (now : Int) (store : UserStore)
    (bodyToken : Option SignedToken) (reqUserId : Option Nat) : ApiResponse × UserStore :=
  ({ status := 200, message := "Logged out successfully" },
   logoutAuthPhase (logoutBodyPhase cfg now store bodyToken) reqUserId)

/-- A request as seen by the logout route: the (well-formed bearer)
Authorization header, if any, and the optional refreshToken body field. -/
structure LogoutRequest where
  bearer : Option SignedToken
  bodyToken : Option SignedToken
deriving DecidableEq, Repr

/-- authMiddleware, jwt.js lines 59-88: absent or malformed header is a
401, an invalid or expired access token is a 401, otherwise req.userId
is set and the wrapped handler runs. -/
def authMiddlewareThen (cfg : JwtConfig) (now : Int) (store : UserStore)
    (bearer : Option SignedToken) (handler : Nat → ApiResponse × UserStore) :
    ApiResponse × UserStore :=
  match bearer with
  | none => ({ status := 401, message := "Access denied. No token provided." }, store)
  | some t =>
    match verifyAccessToken cfg now t with
    | none => ({ status := 401, message := "Invalid or expired token." }, store)
    | some uid => handler uid

/-- The mounted logout endpoint, app.js line 42:
post /api/users/logout = authMiddleware then authController.logout. -/
def logoutRoute (cfg : JwtConfig) (now : Int) (store : UserStore)
    (req : LogoutRequest) : ApiResponse × UserStore :=
  authMiddlewareThen cfg now store req.bearer
    (fun uid => logoutController cfg now store req.bodyToken (some uid))

/-! ## login controller: part_000 lines 76-140 -/

/-- JavaScript truthiness of an optional string field. -/
def truthy : Option String → Bool
  | none => false
  | some s => s ≠ ""

/-- The observable outcome of a login call, instrumented with whether the
user lookup ran and, when comparePassword ran, the pair
(stored password, candidate) it was invoked on. -/
structure LoginOutcome where
  response : ApiResponse
  store : UserStore
  lookedUp : Bool
  comparedWith : Option (String × String)
deriving DecidableEq, Repr

/-- login controller, part_000 lines 76-140. The route attaches no
express-validator checks (app.js line 34), so validationResult is always
empty and the first guard that can fire is the falsiness check on email
and password (lines 91-96), which returns 400 before any lookup. -/
def loginController (cfg : JwtConfig) (bcryptCompare : String → String → Bool)
    (now : Int) (store : UserStore) (email password : Option String) : LoginOutcome :=
  if truthy email && truthy password then
    match findByEmail store (email.getD "") with
    | none =>
      { response := { status := 401, message := "Invalid email or password" },
        store := store, lookedUp := true, comparedWith := none }
    | some u =>
      let cand := password.getD ""
      if comparePassword bcryptCompare u.password cand then
        let atk := generateAccessToken cfg now u.id
        let rtk := generateRefreshToken cfg now u.id
        { response := { status := 200, message := "Login successful",
                        accessToken := some atk, refreshToken := some rtk },
          store := persistUser store (addRefreshToken now u rtk),
          lookedUp := true, comparedWith := some (u.password, cand) }
      else
        { response := { status := 401, message := "Invalid email or password" },
          store := store, lookedUp := true, comparedWith := some (u.password, cand) }
  else
    { response := { status := 400, message := "Email and password are required" },
      store := store, lookedUp := false, comparedWith := none }

/-! ## Concrete fixtures used by witnesses and counterexamples -/

/-- A configuration with distinct signing keys per token class. -/
def cfgA : JwtConfig :=
  { accessSecret := "access-key", refreshSecret := "refresh-key",
    accessExpiry := "15m", refreshExpiry := "7d" }

/-- A refresh token of user 1, held in the active set. -/
def rtok1 : SignedToken := { userId := 1, key := "refresh-key", expMs := 1000000 }

/-- A second refresh token of user 1 (a second session), also active. -/
def rtok2 : SignedToken := { userId := 1, key := "refresh-key", expMs := 2000000 }

/-- A token signed with the wrong key: cryptographically invalid. -/
def forgedTok : SignedToken := { userId := 1, key := "attacker-key", expMs := 1000000 }

/-- A validly signed, unexpired refresh token of user 1 that is absent
from the active set (revoked). -/
def revokedTok : SignedToken := { userId := 1, key := "refresh-key", expMs := 900000 }

/-- A valid access token of user 1. -/
def bearerTok : SignedToken := { userId := 1, key := "access-key", expMs := 500000 }

/-- User 1 with two active refresh sessions. -/
def alice : UserRec :=
  { id := 1, phone := "5550001111",
    refreshTokens := [{ token := rtok1, expiresAt := 604800000 },
                      { token := rtok2, expiresAt := 604800000 }] }

/-- A store holding just user 1. -/
def store1 : UserStore := [alice]

/-- User 2, a password account with an email. -/
def bob : UserRec :=
  { id := 2, phone := "5550002222", email := "bob@example.com", password := "stored-hash" }

/-- A store holding just user 2. -/
def store2 : UserStore := [bob]

/-! ## Helper lemmas about the one-time-code store -/

/-- No entry for the contact is present. -/
def otpAbsent (s : OtpStore) (p : String) : Prop :=
  ∀ e ∈ s, e.1 ≠ p

lemma otpLookup_eq_none_of_absent {s : OtpStore} {p : String}
    (h : otpAbsent s p) : otpLookup s p = none := by
  unfold otpLookup
  rw [List.find?_eq_none.mpr]
  · rfl
  · intro x hx
    simpa using h x hx

lemma otpAbsent_erase_self (s : OtpStore) (p : String) :
    otpAbsent (otpErase s p) p := by
  intro e he
  rw [otpErase, List.mem_filter] at he
  simpa using he.2

lemma otpAbsent_erase {s : OtpStore} {p : String} (q : String)
    (h : otpAbsent s p) : otpAbsent (otpErase s q) p := by
  intro e he
  rw [otpErase, List.mem_filter] at he
  exact h e he.1

lemma otpAbsent_save {s : OtpStore} {p : String} {n : Int} {q o : String}
    (hpq : q ≠ p) (h : otpAbsent s p) : otpAbsent (saveOtp s n q o) p := by
  intro e he
  rcases List.mem_cons.mp he with he | he
  · rw [he]
    exact hpq
  · exact otpAbsent_erase q h e he

lemma verifyOtp_of_absent {s : OtpStore} {p : String} (n : Int) (o : String)
    (h : otpAbsent s p) : verifyOtp s n p o = (false, s) := by
  unfold verifyOtp
  rw [otpLookup_eq_none_of_absent h]

lemma otpAbsent_verify {s : OtpStore} {p : String} (n : Int) (q o : String)
    (h : otpAbsent s p) : otpAbsent (verifyOtp s n q o).2 p := by
  unfold verifyOtp
  cases otpLookup s q with
  | none => exact h
  | some data =>
    dsimp only
    split
    · exact otpAbsent_erase q h
    · split
      · exact h
      · exact otpAbsent_erase q h

/-- Deleted entries stay deleted along any trace that never issues a new
code for the contact. -/
lemma otpAbsent_runOtpOps {s : OtpStore} {p : String}
    (h : otpAbsent s p) (ops : List OtpOp)
    (hops : ∀ op ∈ ops, op.issuesFor p = false) :
    otpAbsent (runOtpOps s ops) p := by
  induction ops generalizing s with
  | nil => exact h
  | cons op rest ih =>
    cases op with
    | save n q o =>
      have hq : q ≠ p := by
        have := hops (OtpOp.save n q o) (List.mem_cons_self _ _)
        simpa [OtpOp.issuesFor] using this
      exact ih (otpAbsent_save hq h) (fun x hx => hops x (List.mem_cons_of_mem _ hx))
    | verify n q o =>
      exact ih (otpAbsent_verify n q o h) (fun x hx => hops x (List.mem_cons_of_mem _ hx))

/-- A successful verification deletes the entry. -/
lemma verifyOtp_true_absent {s : OtpStore} {n : Int} {p o : String}
    (h : (verifyOtp s n p o).1 = true) : otpAbsent (verifyOtp s n p o).2 p := by
  unfold verifyOtp at *
  cases hl : otpLookup s p with
  | none =>
    rw [hl] at h
    simp at h
  | some data =>
    rw [hl] at h
    dsimp only at h ⊢
    by_cases h1 : data.expiresAt < n
    · rw [if_pos h1] at h
      simp at h
    · by_cases h2 : data.otp ≠ o
      · rw [if_neg h1, if_pos h2] at h
        simp at h
      · rw [if_neg h1, if_neg h2]
        exact otpAbsent_erase_self s p

/-- The freshly saved entry, read back. -/
lemma otpLookup_save_self (s : OtpStore) (n : Int) (p o : String) :
    otpLookup (saveOtp s n p o) p =
      some { otp := o, expiresAt := n + 5 * 60 * 1000 } := by
  unfold saveOtp otpLookup
  rw [List.find?_cons_of_pos]
  · rfl
  · simp


/-- A small concrete one-time-code store: one live entry. -/
def otpS0 : OtpStore := [("5551234567", { otp := "123456", expiresAt := 1000 })]

/-! ## Claim theorems -/

/-- C1: the claim says startup fails when a signing key is unconfigured.
The code does the opposite: with an environment that defines no variable
at all, startup succeeds and the config carries the two hardcoded
fallback secrets of jwt.js lines 11-12. This theorem evaluates the code
at that failing input. -/
theorem startup_uses_fallback_secrets :
    startup (fun _ => none) =
      Except.ok { accessSecret := "fallback_access_secret_key_very_secure",
                  refreshSecret := "fallback_refresh_secret_key_very_secure",
                  accessExpiry := "15m", refreshExpiry := "7d" } := rfl

/-- C2: the claim says comparePassword is false whenever the stored hash
is empty or the candidate is empty. The code instead returns the strict
equality of the two strings on that path, so the empty candidate against
a password-less identity (both empty) matches — even under a bcrypt
comparison that never accepts. The one-sided empty cases do return
false, as the two further conjuncts show. -/
theorem comparePassword_empty_empty_true :
    comparePassword (fun _ _ => false) "" "" = true ∧
    comparePassword (fun _ _ => false) "" "x" = false ∧
    comparePassword (fun _ _ => false) "stored-hash" "" = false := by
  decide

/-- C4: a one-time code is accepted at most once. After a successful
consume of a (contact, code) pair the entry is deleted, an immediately
following consume of the same pair returns false, and along any further
sequence of store operations that never issues a fresh code for that
contact, a consume of that pair never returns true again. -/
theorem otp_consume_at_most_once (s : OtpStore) (now : Int) (phone otp : String)
    (hsucc : (verifyOtp s now phone otp).1 = true) :
    otpAbsent (verifyOtp s now phone otp).2 phone ∧
    (∀ now2 : Int, (verifyOtp (verifyOtp s now phone otp).2 now2 phone otp).1 = false) ∧
    (∀ ops : List OtpOp, (∀ op ∈ ops, op.issuesFor phone = false) →
      ∀ now3 : Int,
        (verifyOtp (runOtpOps (verifyOtp s now phone otp).2 ops) now3 phone otp).1 = false) := by
  have habs := verifyOtp_true_absent hsucc
  refine ⟨habs, ?_, ?_⟩
  · intro now2
    rw [verifyOtp_of_absent now2 otp habs]
  · intro ops hops now3
    rw [verifyOtp_of_absent now3 otp (otpAbsent_runOtpOps habs ops hops)]

/-- Witness for C4 at a concrete store and trace. -/
theorem otp_consume_at_most_once_witness :
    (verifyOtp (verifyOtp otpS0 10 "5551234567" "123456").2 11 "5551234567" "123456").1 = false ∧
    (verifyOtp (runOtpOps (verifyOtp otpS0 10 "5551234567" "123456").2
        [OtpOp.save 20 "5559998888" "999999", OtpOp.verify 30 "5551234567" "123456"])
      40 "5551234567" "123456").1 = false :=
  ⟨(otp_consume_at_most_once otpS0 10 "5551234567" "123456" (by decide)).2.1 11,
   (otp_consume_at_most_once otpS0 10 "5551234567" "123456" (by decide)).2.2
     [OtpOp.save 20 "5559998888" "999999", OtpOp.verify 30 "5551234567" "123456"]
     (by decide) 40⟩

/-- C8: a saved code is stored with expiry exactly 5 minutes after
issuance; any consume strictly after that instant returns false even for
the matching code, deletes the entry as a side effect, and afterwards no
consume for that contact can succeed along any trace that never issues a
fresh code for it. -/
theorem otp_expires_after_five_minutes (s : OtpStore) (now : Int) (phone otp : String) :
    otpLookup (saveOtp s now phone otp) phone =
      some { otp := otp, expiresAt := now + 5 * 60 * 1000 } ∧
    (∀ t2 : Int, now + 5 * 60 * 1000 < t2 → ∀ cand : String,
      verifyOtp (saveOtp s now phone otp) t2 phone cand =
        (false, otpErase (saveOtp s now phone otp) phone) ∧
      (∀ ops : List OtpOp, (∀ op ∈ ops, op.issuesFor phone = false) →
        ∀ (t3 : Int) (cand2 : String),
          (verifyOtp (runOtpOps (verifyOtp (saveOtp s now phone otp) t2 phone cand).2 ops)
              t3 phone cand2).1 = false)) := by
  refine ⟨otpLookup_save_self s now phone otp, ?_⟩
  intro t2 ht2 cand
  have hver : verifyOtp (saveOtp s now phone otp) t2 phone cand =
      (false, otpErase (saveOtp s now phone otp) phone) := by
    unfold verifyOtp
    rw [otpLookup_save_self]
    dsimp only
    rw [if_pos ht2]
  refine ⟨hver, ?_⟩
  intro ops hops t3 cand2
  have habs : otpAbsent (verifyOtp (saveOtp s now phone otp) t2 phone cand).2 phone := by
    rw [hver]
    exact otpAbsent_erase_self _ _
  rw [verifyOtp_of_absent t3 cand2 (otpAbsent_runOtpOps habs ops hops)]

/-- Witness for C8 at a concrete issuance and a post-expiry consume. -/
theorem otp_expires_after_five_minutes_witness :
    otpLookup (saveOtp [] 0 "5551234567" "246810") "5551234567" =
      some { otp := "246810", expiresAt := 0 + 5 * 60 * 1000 } ∧
    verifyOtp (saveOtp [] 0 "5551234567" "246810") 300001 "5551234567" "246810" =
      (false, otpErase (saveOtp [] 0 "5551234567" "246810") "5551234567") ∧
    (verifyOtp (runOtpOps
        (verifyOtp (saveOtp [] 0 "5551234567" "246810") 300001 "5551234567" "246810").2 [])
      300002 "5551234567" "246810").1 = false :=
  ⟨(otp_expires_after_five_minutes [] 0 "5551234567" "246810").1,
   ((otp_expires_after_five_minutes [] 0 "5551234567" "246810").2 300001 (by decide) "246810").1,
   ((otp_expires_after_five_minutes [] 0 "5551234567" "246810").2 300001 (by decide) "246810").2
     [] (by decide) 300002 "246810"⟩

/-- C9: consuming a stored, unexpired entry with a non-matching code
returns false and leaves the whole store untouched; any number of such
wrong attempts leaves the store untouched, and the correct code before
expiry still succeeds afterwards. -/
theorem otp_wrong_code_leaves_entry (s : OtpStore) (phone code : String) (e : Int)
    (hent : otpLookup s phone = some { otp := code, expiresAt := e }) :
    (∀ (t : Int) (wrong : String), t ≤ e → wrong ≠ code →
      verifyOtp s t phone wrong = (false, s)) ∧
    (∀ attempts : List (Int × String),
      (∀ a ∈ attempts, a.1 ≤ e ∧ a.2 ≠ code) →
      runOtpOps s (attempts.map (fun a => OtpOp.verify a.1 phone a.2)) = s) ∧
    (∀ t : Int, t ≤ e → (verifyOtp s t phone code).1 = true) ∧
    (∀ attempts : List (Int × String),
      (∀ a ∈ attempts, a.1 ≤ e ∧ a.2 ≠ code) →
      ∀ t : Int, t ≤ e →
        (verifyOtp (runOtpOps s (attempts.map (fun a => OtpOp.verify a.1 phone a.2)))
            t phone code).1 = true) := by
  have hwrong : ∀ (t : Int) (wrong : String), t ≤ e → wrong ≠ code →
      verifyOtp s t phone wrong = (false, s) := by
    intro t wrong ht hw
    unfold verifyOtp
    rw [hent]
    dsimp only
    rw [if_neg (not_lt.mpr ht), if_pos (Ne.symm hw)]
  have hmatch : ∀ t : Int, t ≤ e → (verifyOtp s t phone code).1 = true := by
    intro t ht
    unfold verifyOtp
    rw [hent]
    dsimp only
    rw [if_neg (not_lt.mpr ht), if_neg (fun h => h rfl)]
  have hframe : ∀ attempts : List (Int × String),
      (∀ a ∈ attempts, a.1 ≤ e ∧ a.2 ≠ code) →
      runOtpOps s (attempts.map (fun a => OtpOp.verify a.1 phone a.2)) = s := by
    intro attempts
    induction attempts with
    | nil => intro _; rfl
    | cons a rest ih =>
      intro hall
      have ha := hall a (List.mem_cons_self _ _)
      show runOtpOps (verifyOtp s a.1 phone a.2).2 (rest.map _) = s
      rw [hwrong a.1 a.2 ha.1 ha.2]
      exact ih (fun x hx => hall x (List.mem_cons_of_mem _ hx))
  refine ⟨hwrong, hframe, hmatch, ?_⟩
  intro attempts hall t ht
  rw [hframe attempts hall]
  exact hmatch t ht

/-- Witness for C9 at a concrete store: two wrong attempts, then the
correct code. -/
theorem otp_wrong_code_leaves_entry_witness :
    verifyOtp otpS0 5 "5551234567" "000000" = (false, otpS0) ∧
    runOtpOps otpS0 [OtpOp.verify 5 "5551234567" "000000", OtpOp.verify 6 "5551234567" "111111"] = otpS0 ∧
    (verifyOtp (runOtpOps otpS0
        [OtpOp.verify 5 "5551234567" "000000", OtpOp.verify 6 "5551234567" "111111"])
      7 "5551234567" "123456").1 = true :=
  ⟨(otp_wrong_code_leaves_entry otpS0 "5551234567" "123456" 1000 (by decide)).1
      5 "000000" (by decide) (by decide),
   (otp_wrong_code_leaves_entry otpS0 "5551234567" "123456" 1000 (by decide)).2.1
      [(5, "000000"), (6, "111111")] (by decide),
   (otp_wrong_code_leaves_entry otpS0 "5551234567" "123456" 1000 (by decide)).2.2.2
      [(5, "000000"), (6, "111111")] (by decide) 7 (by decide)⟩

/-! ## Helper lemmas about the user store -/

lemma findById_id {s : UserStore} {uid : Nat} {u : UserRec}
    (h : findById s uid = some u) : u.id = uid := by
  unfold findById at h
  have := List.find?_some h
  simpa using this

/-- Persisting a mutated document rewrites every record sharing its id
and leaves lookups of other ids untouched. -/
lemma findById_persistUser {s : UserStore} {uid : Nat} {u : UserRec} (w : UserRec)
    (h : findById s uid = some u) :
    findById (persistUser s w) uid = some (if u.id = w.id then w else u) := by
  induction s with
  | nil => simp [findById] at h
  | cons v t ih =>
    by_cases hvu : v.id = uid
    · have hu : u = v := by
        unfold findById at h
        rw [List.find?_cons_of_pos _ (by simpa using hvu)] at h
        exact (Option.some.inj h).symm
      subst hu
      unfold persistUser findById
      rw [List.map_cons]
      by_cases hvw : u.id = w.id
      · rw [if_pos hvw]
        exact List.find?_cons_of_pos _ (by simp [← hvw, hvu])
      · rw [if_neg hvw]
        exact List.find?_cons_of_pos _ (by simpa using hvu)
    · have ht : findById t uid = some u := by
        unfold findById at h ⊢
        rwa [List.find?_cons_of_neg _ (by simpa using hvu)] at h
      have := ih ht
      unfold persistUser findById at this ⊢
      rw [List.map_cons]
      by_cases hvw : v.id = w.id
      · rw [if_pos hvw]
        rw [List.find?_cons_of_neg _ (by simp [← hvw]; exact hvu)]
        exact this
      · rw [if_neg hvw]
        rw [List.find?_cons_of_neg _ (by simpa using hvu)]
        exact this

/-- The auth phase of logout clears the whole refresh-token set of the
authenticated user. -/
lemma findById_logoutAuthPhase {store : UserStore} {uid : Nat} {u : UserRec}
    (h : findById store uid = some u) :
    ∀ u2, findById (logoutAuthPhase store (some uid)) uid = some u2 →
      u2.refreshTokens = [] := by
  intro u2 h2
  simp only [logoutAuthPhase, h] at h2
  rw [findById_persistUser (clearRefreshTokens u) h] at h2
  rw [if_pos (show u.id = (clearRefreshTokens u).id from rfl)] at h2
  rw [← Option.some.inj h2]
  rfl

/-- The body phase of logout never drops a user record. -/
lemma findById_logoutBodyPhase {cfg : JwtConfig} {now : Int} {store : UserStore}
    {uid : Nat} {u : UserRec} (bodyToken : Option SignedToken)
    (h : findById store uid = some u) :
    ∃ u1, findById (logoutBodyPhase cfg now store bodyToken) uid = some u1 := by
  cases bodyToken with
  | none => exact ⟨u, by simpa [logoutBodyPhase] using h⟩
  | some t =>
    cases hv : verifyRefreshToken cfg now t with
    | none =>
      refine ⟨u, ?_⟩
      simp only [logoutBodyPhase, hv]
      exact h
    | some uid0 =>
      cases h0 : findById store uid0 with
      | none =>
        refine ⟨u, ?_⟩
        simp only [logoutBodyPhase, hv, h0]
        exact h
      | some u0 =>
        refine ⟨if u.id = (removeRefreshToken u0 t).id then removeRefreshToken u0 t else u, ?_⟩
        simp only [logoutBodyPhase, hv, h0]
        exact findById_persistUser (removeRefreshToken u0 t) h

/-- C3: refresh with a cryptographically invalid or expired token is a
401; refresh with a verified token that is absent from the active set of
the owning record is also a 401; on success only a new access token is
issued (the data object carries no refresh token) and the user store —
hence the active refresh-token set — is unchanged: no rotation. -/
theorem refresh_statuses_and_no_rotation (cfg : JwtConfig) (now : Int)
    (store : UserStore) (t : SignedToken) :
    (verifyRefreshToken cfg now t = none →
      refreshTokenController cfg now store (some t) =
        ({ status := 401, message := "Invalid or expired refresh token" }, store)) ∧
    (∀ (uid : Nat) (u : UserRec), verifyRefreshToken cfg now t = some uid →
      findById store uid = some u →
      u.refreshTokens.any (fun rt => rt.token = t) = false →
      refreshTokenController cfg now store (some t) =
        ({ status := 401, message := "Refresh token has been revoked" }, store)) ∧
    (∀ (uid : Nat) (u : UserRec), verifyRefreshToken cfg now t = some uid →
      findById store uid = some u →
      u.refreshTokens.any (fun rt => rt.token = t) = true →
      refreshTokenController cfg now store (some t) =
        ({ status := 200, message := "Token refreshed successfully",
           accessToken := some (generateAccessToken cfg now uid),
           refreshToken := none }, store)) := by
  refine ⟨?_, ?_, ?_⟩
  · intro hv
    simp [refreshTokenController, hv]
  · intro uid u hv hu hany
    simp [refreshTokenController, hv, hu, hany]
  · intro uid u hv hu hany
    simp [refreshTokenController, hv, hu, hany]

/-- Witness for C3: the three refresh outcomes at a concrete store —
forged token, revoked-but-valid token, active token. -/
theorem refresh_statuses_and_no_rotation_witness :
    refreshTokenController cfgA 0 store1 (some forgedTok) =
      ({ status := 401, message := "Invalid or expired refresh token" }, store1) ∧
    refreshTokenController cfgA 0 store1 (some revokedTok) =
      ({ status := 401, message := "Refresh token has been revoked" }, store1) ∧
    refreshTokenController cfgA 0 store1 (some rtok1) =
      ({ status := 200, message := "Token refreshed successfully",
         accessToken := some (generateAccessToken cfgA 0 1),
         refreshToken := none }, store1) :=
  ⟨(refresh_statuses_and_no_rotation cfgA 0 store1 forgedTok).1 (by decide),
   (refresh_statuses_and_no_rotation cfgA 0 store1 revokedTok).2.1 1 alice
     (by decide) (by decide) (by decide),
   (refresh_statuses_and_no_rotation cfgA 0 store1 rtok1).2.2 1 alice
     (by decide) (by decide) (by decide)⟩

/-- C7: the claim says a second email-less identity can be created. The
schema gives email a non-sparse unique index and the default empty
string, so both email-less records store email as the empty string: the
first create succeeds and the second fails with the duplicate-key error
E11000 on the email index. -/
theorem second_emailless_create_conflicts :
    userCreate (fun s => String.append "hashed-" s) [] 1 { phone := "1111111111" } =
      Except.ok [{ id := 1, phone := "1111111111" }] ∧
    userCreate (fun s => String.append "hashed-" s) [{ id := 1, phone := "1111111111" }] 2
        { phone := "2222222222" } =
      Except.error (DbError.duplicateKey "email") := by
  constructor <;> rfl

/-- C5 fails as stated: app.js line 42 mounts logout behind the access
middleware, so the request of the claim — a valid refresh token in the
body and no bearer credential — is answered 401 before the controller
runs; the store is unchanged and the presented token, although
cryptographically valid and present in the active set, is not removed. -/
theorem logout_refresh_only_request_rejected :
    logoutRoute cfgA 0 store1 { bearer := none, bodyToken := some rtok1 } =
      ({ status := 401, message := "Access denied. No token provided." }, store1) ∧
    verifyRefreshToken cfgA 0 rtok1 = some 1 ∧
    findById (logoutRoute cfgA 0 store1 { bearer := none, bodyToken := some rtok1 }).2 1 =
      some alice ∧
    ({ token := rtok1, expiresAt := 604800000 } : RefreshEntry) ∈ alice.refreshTokens := by
  refine ⟨rfl, by decide, rfl, by decide⟩

/-- C5 (amended): the logout controller itself is asymmetric — with a
valid refresh token in the body and no authenticated userId it removes
only that token and keeps every other entry of the owner; with an
authenticated userId it clears the whole set. Through the mounted route,
however, only the authenticated clear-all behavior is reachable: a
request without a bearer credential is rejected 401 with nothing
removed, and a request with a valid bearer always ends with the empty
refresh-token set for that identity. -/
theorem logout_asymmetry_amended :
    (∀ (cfg : JwtConfig) (now : Int) (store : UserStore) (t : SignedToken)
        (uid : Nat) (u : UserRec),
      verifyRefreshToken cfg now t = some uid → findById store uid = some u →
      logoutController cfg now store (some t) none =
        ({ status := 200, message := "Logged out successfully" },
         persistUser store (removeRefreshToken u t)) ∧
      (∀ rt ∈ u.refreshTokens, rt.token ≠ t →
        rt ∈ (removeRefreshToken u t).refreshTokens)) ∧
    (∀ (cfg : JwtConfig) (now : Int) (store : UserStore) (body : Option SignedToken),
      logoutRoute cfg now store { bearer := none, bodyToken := body } =
        ({ status := 401, message := "Access denied. No token provided." }, store)) ∧
    (∀ (cfg : JwtConfig) (now : Int) (store : UserStore) (body : Option SignedToken)
        (b : SignedToken) (uid : Nat) (u : UserRec),
      verifyAccessToken cfg now b = some uid → findById store uid = some u →
      ∀ u2, findById (logoutRoute cfg now store
          { bearer := some b, bodyToken := body }).2 uid = some u2 →
        u2.refreshTokens = []) := by
  refine ⟨?_, ?_, ?_⟩
  · intro cfg now store t uid u hv hu
    constructor
    · simp only [logoutController, logoutBodyPhase, logoutAuthPhase, hv, hu]
    · intro rt hrt hne
      unfold removeRefreshToken
      simp only [List.mem_filter]
      exact ⟨hrt, by simpa using hne⟩
  · intro cfg now store body
    rfl
  · intro cfg now store body b uid u hb hu u2 h2
    simp only [logoutRoute, authMiddlewareThen, hb, logoutController] at h2
    obtain ⟨u1, h1⟩ := findById_logoutBodyPhase body hu
    exact findById_logoutAuthPhase h1 u2 h2

/-- Witness for C5 (amended): the controller-level single-token removal,
the route-level 401 without a bearer, and the route-level clear-all with
a valid bearer, all at a concrete two-session store. -/
theorem logout_asymmetry_amended_witness :
    logoutController cfgA 0 store1 (some rtok1) none =
      ({ status := 200, message := "Logged out successfully" },
       persistUser store1 (removeRefreshToken alice rtok1)) ∧
    ({ token := rtok2, expiresAt := 604800000 } : RefreshEntry) ∈
      (removeRefreshToken alice rtok1).refreshTokens ∧
    logoutRoute cfgA 0 store1 { bearer := none, bodyToken := some rtok1 } =
      ({ status := 401, message := "Access denied. No token provided." }, store1) ∧
    (clearRefreshTokens alice).refreshTokens = [] :=
  ⟨(logout_asymmetry_amended.1 cfgA 0 store1 rtok1 1 alice (by decide) (by decide)).1,
   (logout_asymmetry_amended.1 cfgA 0 store1 rtok1 1 alice (by decide) (by decide)).2
     { token := rtok2, expiresAt := 604800000 } (by decide) (by decide),
   logout_asymmetry_amended.2.1 cfgA 0 store1 (some rtok1),
   logout_asymmetry_amended.2.2 cfgA 0 store1 none bearerTok 1 alice
     (by decide) (by decide) (clearRefreshTokens alice) (by decide)⟩

/-- C6 fails as stated: at a concrete store, a forged refresh token and
a revoked (validly signed, unexpired, but absent from the active set)
refresh token both yield status 401, but the response messages differ,
so the two failure classes are distinguishable at the boundary. -/
theorem refresh_failure_messages_differ :
    (refreshTokenController cfgA 0 store1 (some forgedTok)).1.status =
      (refreshTokenController cfgA 0 store1 (some revokedTok)).1.status ∧
    (refreshTokenController cfgA 0 store1 (some forgedTok)).1.message ≠
      (refreshTokenController cfgA 0 store1 (some revokedTok)).1.message ∧
    verifyRefreshToken cfgA 0 forgedTok = none ∧
    verifyRefreshToken cfgA 0 revokedTok = some 1 := by
  refine ⟨rfl, by decide, by decide, by decide⟩

/-- C6 (amended): the two failing refresh classes agree on the status
(both 401) but not on the message: cryptographic failure answers
Invalid-or-expired (so forged and expired remain mutually
indistinguishable), revocation answers Refresh-token-has-been-revoked,
and the two responses differ. -/
theorem refresh_failures_same_status_distinct_messages :
    (∀ (cfg : JwtConfig) (now : Int) (store : UserStore) (t : SignedToken),
      verifyRefreshToken cfg now t = none →
      (refreshTokenController cfg now store (some t)).1 =
        { status := 401, message := "Invalid or expired refresh token" }) ∧
    (∀ (cfg : JwtConfig) (now : Int) (store : UserStore) (t : SignedToken)
        (uid : Nat) (u : UserRec),
      verifyRefreshToken cfg now t = some uid → findById store uid = some u →
      u.refreshTokens.any (fun rt => rt.token = t) = false →
      (refreshTokenController cfg now store (some t)).1 =
        { status := 401, message := "Refresh token has been revoked" }) ∧
    ({ status := 401, message := "Invalid or expired refresh token" } : ApiResponse) ≠
      { status := 401, message := "Refresh token has been revoked" } := by
  refine ⟨?_, ?_, by decide⟩
  · intro cfg now store t hv
    simp [refreshTokenController, hv]
  · intro cfg now store t uid u hv hu hany
    simp [refreshTokenController, hv, hu, hany]

/-- Witness for C6 (amended) at the concrete store: the forged and the
revoked token each produce their class response. -/
theorem refresh_failures_same_status_distinct_messages_witness :
    (refreshTokenController cfgA 0 store1 (some forgedTok)).1 =
      { status := 401, message := "Invalid or expired refresh token" } ∧
    (refreshTokenController cfgA 0 store1 (some revokedTok)).1 =
      { status := 401, message := "Refresh token has been revoked" } :=
  ⟨refresh_failures_same_status_distinct_messages.1 cfgA 0 store1 forgedTok (by decide),
   refresh_failures_same_status_distinct_messages.2.1 cfgA 0 store1 revokedTok 1 alice
     (by decide) (by decide) (by decide)⟩

/-- C10: a password-login request whose email or password field is
absent or empty is answered 400 before any user lookup or password
comparison and without touching the store; consequently every
comparePassword invocation reachable through the login endpoint has a
non-empty candidate, so the empty-vs-empty comparison path is
unreachable there. -/
theorem login_missing_fields_rejected_early :
    (∀ (cfg : JwtConfig) (bc : String → String → Bool) (now : Int) (store : UserStore)
        (email password : Option String),
      truthy email = false ∨ truthy password = false →
      loginController cfg bc now store email password =
        { response := { status := 400, message := "Email and password are required" },
          store := store, lookedUp := false, comparedWith := none }) ∧
    (∀ (cfg : JwtConfig) (bc : String → String → Bool) (now : Int) (store : UserStore)
        (email password : Option String) (st cand : String),
      (loginController cfg bc now store email password).comparedWith = some (st, cand) →
      cand ≠ "") := by
  constructor
  · intro cfg bc now store email password h
    have hc : (truthy email && truthy password) = false := by
      rcases h with h | h <;> simp [h]
    simp [loginController, hc]
  · intro cfg bc now store email password st cand h
    by_cases hc : (truthy email && truthy password) = true
    · have hp : truthy password = true := (Bool.and_eq_true _ _ |>.mp hc).2
      cases password with
      | none => simp [truthy] at hp
      | some s =>
        have hs : s ≠ "" := by simpa [truthy] using hp
        simp only [loginController, hc, if_true] at h
        cases hf : findByEmail store (email.getD "") with
        | none =>
          rw [hf] at h
          simp at h
        | some u =>
          rw [hf] at h
          dsimp only at h
          by_cases hcp : comparePassword bc u.password ((some s).getD "") = true
          · rw [if_pos hcp] at h
            dsimp only at h
            have : cand = (some s).getD "" := (Prod.mk.injEq _ _ _ _ |>.mp (Option.some.inj h)).2.symm
            rw [this]
            exact hs
          · rw [if_neg hcp] at h
            dsimp only at h
            have : cand = (some s).getD "" := (Prod.mk.injEq _ _ _ _ |>.mp (Option.some.inj h)).2.symm
            rw [this]
            exact hs
    · have hcf : (truthy email && truthy password) = false := by
        revert hc
        cases truthy email && truthy password <;> simp
      simp [loginController, hcf] at h

/-- Witness for C10: a request with a missing password is rejected 400
with nothing looked up, and a reachable comparison at the same endpoint
carries a non-empty candidate. -/
theorem login_missing_fields_rejected_early_witness :
    loginController cfgA (fun _ _ => false) 0 store2 (some "bob@example.com") none =
      { response := { status := 400, message := "Email and password are required" },
        store := store2, lookedUp := false, comparedWith := none } ∧
    ("guess" : String) ≠ "" :=
  ⟨login_missing_fields_rejected_early.1 cfgA (fun _ _ => false) 0 store2
     (some "bob@example.com") none (Or.inr (by decide)),
   login_missing_fields_rejected_early.2 cfgA (fun _ _ => false) 0 store2
     (some "bob@example.com") (some "guess") "stored-hash" "guess" (by decide)⟩
